import Mathlib

/-!
Verification of the asynchronous paper-interpretation pipeline
(`main.py`, `tasks.py`, `utils.py`) against its natural-language design
document.

Python strings are modelled as lists of characters (`Str`): Python's
`s[:n]` is `List.take n`, `len` is `List.length`, `+` is `++`, and the
truthiness test `if s:` is non-emptiness.  External collaborators (file
system, PDF/DOCX parsers, HTTP transports, the Celery result backend)
are modelled as explicit oracles recording the outcome the library call
would have produced; the definitions below reproduce the control flow of
the Python functions over those oracles.
-/

namespace Ansapra

/-- Python strings as lists of characters. -/
abbrev Str := List Char

/-- Literal conversion from a Lean string literal to the model type. -/
def str (s : String) : Str := s.data

/-- Python truthiness of an optional string: `None` and `""` are falsy. -/
def truthy : Option Str → Bool
  | none => false
  | some s => !s.isEmpty

/-- Python `str.strip()`: remove leading and trailing whitespace. -/
def pyStrip (s : Str) : Str :=
  ((s.dropWhile Char.isWhitespace).reverse.dropWhile Char.isWhitespace).reverse

/-- Helper for `pySplit`: accumulate the current word while scanning. -/
def pySplitAux : Str → Str → List Str
  | [], acc => if acc.isEmpty then [] else [acc.reverse]
  | c :: rest, acc =>
    if c.isWhitespace then
      if acc.isEmpty then pySplitAux rest []
      else acc.reverse :: pySplitAux rest []
    else pySplitAux rest (c :: acc)

/-- Python `str.split()` with no separator: split on runs of whitespace,
producing only non-empty words. -/
def pySplit (s : Str) : List Str := pySplitAux s []

/-- Decimal rendering of a natural number, as in Python f-strings. -/
def natStr (n : Nat) : Str := (toString n).data

/-- First `some` produced by an ordered list of attempts (the Python
`for ...: try: return ... except: continue` loop). -/
def firstSome (l : List (Option Str)) : Option Str :=
  (l.filterMap id).head?

/-! ## Content extractor (`tasks.py`, `extract_content`) -/

/-- The fixed sentinel returned when no extraction method yields text
(`tasks.py` line 183). -/
def sentinel : Str := str "无法提取文本内容，文件可能是扫描件或包含图像文字。"

/-- Outcome of the external library calls made by `extract_content` for a
given file: whether the path exists, whether `open`/`read` succeeds (and
the exception text if not), the PDF parse (`none` = `PdfReader`/page
parsing raised, `some pages` = per-page `extract_text()` results), the
DOCX parse (`none` = raised, `some paragraphs`), the outcome of each
`decode(encoding, errors='ignore')` attempt in order, and whether
`os.remove` succeeds. -/
structure FileOracle where
  pathExists : Bool
  readOk : Bool
  readErr : Str
  pdf : Option (List Str)
  docx : Option (List Str)
  decodes : List (Option Str)
  removeOk : Bool
deriving DecidableEq

/-- PDF stage accumulation (`tasks.py` lines 151-155): up to the first 5
pages, non-empty page texts are concatenated with a page label. -/
def pdfConcat : Nat → List Str → Str
  | _, [] => []
  | i, p :: rest =>
    (if p.isEmpty then [] else str "第" ++ natStr (i + 1) ++ str "页:\n" ++ p ++ str "\n\n")
      ++ pdfConcat (i + 1) rest

/-- Text assembled by the PDF stage from the first 5 pages. -/
def pdfText (pages : List Str) : Str := pdfConcat 0 (pages.take 5)

/-- Text assembled by the DOCX stage (`tasks.py` lines 163-167):
paragraphs whose stripped text is non-empty, each followed by a newline. -/
def docxText (paras : List Str) : Str :=
  paras.foldl (fun acc p => if (pyStrip p).isEmpty then acc else acc ++ p ++ str "\n") []

/-- Plain-text stage (`tasks.py` lines 174-183): return the first decode
attempt that does not raise; if every attempt raises, fall through to the
sentinel return. -/
def textStage (o : FileOracle) : Except Str Str :=
  Except.ok ((firstSome o.decodes).getD sentinel)

/-- DOCX stage (`tasks.py` lines 162-171): on parse success with
non-empty text, return it; otherwise fall through to the text stage. -/
def docxStage (o : FileOracle) : Except Str Str :=
  match o.docx with
  | some paras => if (docxText paras).isEmpty then textStage o else Except.ok (docxText paras)
  | none => textStage o

/-- PDF stage (`tasks.py` lines 149-159): on parse success with
non-empty text, return it; otherwise fall through to the DOCX stage. -/
def pdfStage (o : FileOracle) : Except Str Str :=
  match o.pdf with
  | some pages => if (pdfText pages).isEmpty then docxStage o else Except.ok (pdfText pages)
  | none => docxStage o

/-- Result of one call to `extract_content`: the returned string (or the
exception that escaped, as an `Except.error`), whether the `finally`
block attempted `os.remove`, and whether the file is still present
afterwards. -/
structure ExtractResult where
  output : Except Str Str
  removeAttempted : Bool
  fileRemains : Bool

/-- `extract_content(file_path, text)` (`tasks.py` lines 136-191).
Inline truthy text returns `text[:10000]` immediately; a falsy path or a
missing file returns `""`; otherwise the `try` body runs the three
extraction stages (a failing `read` lets the exception escape) and the
`finally` block always attempts to delete the file, swallowing deletion
failures. -/
def extract_content (filePath text : Option Str) (o : FileOracle) : ExtractResult :=
  if truthy text then
    ⟨Except.ok ((text.getD []).take 10000), false, o.pathExists⟩
  else if !truthy filePath || !o.pathExists then
    ⟨Except.ok [], false, o.pathExists⟩
  else
    let body : Except Str Str :=
      if o.readOk then pdfStage o else Except.error o.readErr
    ⟨body, true, !o.removeOk⟩

/-! ## Interpretation client (`tasks.py`, `call_deepseek_api`) -/

/-- Parsed JSON body of a successful DeepSeek response: the `choices`
key, when present, holding the `message.content` of each choice. -/
structure DSResponse where
  choices : Option (List Str)
deriving DecidableEq

/-- Transport outcome of the DeepSeek HTTP call: `Except.error e` when
`requests.post`, `raise_for_status` or `response.json()` raised with
text `e`, `Except.ok` with the parsed body otherwise. -/
abbrev DSTransport := Except Str DSResponse

/-- The content actually placed in the prompt (`tasks.py` line 199):
truncated to 5000 with a truncation notice appended when truncation
occurred. -/
def deepseekPromptContent (content : Str) : Str :=
  if content.length > 5000 then content.take 5000 ++ str "\n[注：内容过长，已截断]" else content

/-- `call_deepseek_api(content)` (`tasks.py` lines 193-248).  No key
configured returns the fixed not-configured message; a transport failure
returns a failure message embedding the error text; a body without a
non-empty `choices` list returns the fixed no-result message. -/
def call_deepseek_api (apiKey : Option Str) (content : Str) (transport : DSTransport) : Str :=
  if !truthy apiKey then str "API密钥未配置"
  else
    let _promptContent := deepseekPromptContent content
    match transport with
    | Except.error e => str "API调用失败: " ++ e
    | Except.ok resp =>
      match resp.choices with
      | some (c :: _) => c
      | some [] => str "未能获取解读结果"
      | none => str "未能获取解读结果"

/-! ## Literature search (`tasks.py`, `search_related_papers_task` and
`search_related_papers`) -/

/-- A bibliographic record as returned by the Springer index, with each
field optional (`record.get`).  `creators` holds each creator dict's
`creator` key; `url` holds each url dict's `value` key. -/
structure RecordJson where
  title : Option Str
  creators : Option (List (Option Str))
  publicationName : Option Str
  publicationDate : Option Str
  url : Option (List (Option Str))
  abstract : Option Str
deriving DecidableEq

/-- A recommended work as assembled by `search_related_papers_task`. -/
structure Paper where
  title : Str
  authors : Str
  publication : Str
  year : Str
  url : Str
  abstract : Str
deriving DecidableEq

/-- Projection of one Springer record into a paper dict
(`tasks.py` lines 101-108). -/
def paperOfRecord (r : RecordJson) : Paper where
  title := r.title.getD []
  authors := List.intercalate (str ", ") ((r.creators.getD []).map (fun c => c.getD []))
  publication := r.publicationName.getD []
  year :=
    match r.publicationDate with
    | some d => if d.isEmpty then [] else d.take 4
    | none => []
  url :=
    match r.url with
    | some (v :: _) => v.getD []
    | some [] => []
    | none => []
  abstract :=
    match r.abstract with
    | some a => if a.isEmpty then [] else a.take 200 ++ str "..."
    | none => []

/-- Parsed JSON body of a Springer response: the `records` key when
present. -/
structure SpringerData where
  records : Option (List RecordJson)
deriving DecidableEq

/-- Transport outcome of the Springer HTTP call. -/
abbrev SpringerTransport := Except Str SpringerData

/-- `search_related_papers_task(query, count)` (`tasks.py` lines 76-115).
No key returns `[]`; any transport failure is caught and returns `[]`;
otherwise the first `count` records are projected into papers. -/
def search_related_papers_task (apiKey : Option Str) (_query : Str) (count : Nat)
    (transport : SpringerTransport) : List Paper :=
  if !truthy apiKey then []
  else
    match transport with
    | Except.error _ => []
    | Except.ok data =>
      match data.records with
      | some recs => (recs.take count).map paperOfRecord
      | none => []

/-- The query derived from the content (`tasks.py` lines 256-257): the
first three whitespace-delimited words joined by spaces, or the fixed
default when the content has no words. -/
def searchQuery (content : Str) : Str :=
  let words := (pySplit content).take 3
  if words.isEmpty then str "natural science" else List.intercalate (str " ") words

/-- Environment of `search_related_papers`: the configured key, the
Springer transport outcome seen by the dispatched sub-task, and whether
`result.get(timeout=10)` delivered the sub-task's value before raising. -/
structure SearchEnv where
  springerKey : Option Str
  transport : SpringerTransport
  waitOk : Bool

/-- `search_related_papers(content)` (`tasks.py` lines 250-265).  The
second component records the query dispatched to the sub-task (`none`
when no sub-task was dispatched). -/
def search_related_papers (env : SearchEnv) (content : Str) : List Paper × Option Str :=
  if !truthy env.springerKey || content.isEmpty then ([], none)
  else
    let q := searchQuery content
    let papers := search_related_papers_task env.springerKey q 3 env.transport
    (if env.waitOk then papers else [], some q)

/-! ## Result payload and history recorder -/

/-- The result dict assembled by `process_paper_task`
(`tasks.py` lines 50-56), with the timestamp as an opaque string. -/
structure ResultPayload where
  interpretation : Str
  original_content : Str
  recommendations : List Paper
  processed_at : Str
  content_length : Nat
deriving DecidableEq

/-- The result dict as seen by `InterpretationHistory.create_from_result`
(`main.py` lines 137-146), where each key may be absent. -/
structure ResultDict where
  interpretation : Option Str
  original_content : Option Str
  recommendations : Option (List Paper)
deriving DecidableEq

/-- An `interpretation_history` row as filled in by
`create_from_result`. -/
structure HistoryRecord where
  content_preview : Str
  interpretation_preview : Str
  full_content : Option Str
  full_interpretation : Option Str
  recommendations : List Paper
deriving DecidableEq

/-- `InterpretationHistory.create_from_result` (`main.py` lines 136-149):
previews are the first 500 characters of the corresponding field
(defaulting to `""` when absent), full copies are stored as-is. -/
def create_from_result (result : ResultDict) : HistoryRecord where
  content_preview := (result.original_content.getD []).take 500
  interpretation_preview := (result.interpretation.getD []).take 500
  full_content := result.original_content
  full_interpretation := result.interpretation
  recommendations := result.recommendations.getD []

/-! ## Job record (`main.py`, `AsyncTask`) -/

/-- The mutable fields of an `async_tasks` row relevant to the status
machine. -/
structure Job where
  status : Str
  result : Option ResultPayload
  error : Option Str
  updated_at : Nat
deriving DecidableEq

/-- `AsyncTask.update_status` (`main.py` lines 112-119): the status and
timestamp are always overwritten; `result` and `error` are overwritten
only when the corresponding argument is not `None` — the other field is
left unchanged. -/
def update_status (j : Job) (now : Nat) (status : Str) (result : Option ResultPayload)
    (error : Option Str) : Job where
  status := status
  result := match result with | some r => some r | none => j.result
  error := match error with | some e => some e | none => j.error
  updated_at := now

/-! ## Orchestrator (`tasks.py`, `process_paper_task`) -/

/-- One status-update write issued through `update_task_status`. -/
structure Update where
  status : Str
  result : Option ResultPayload
  error : Option Str
deriving DecidableEq

/-- Environment of one execution of `process_paper_task`: the job input
(inline text and file reference), the file-system oracle, the DeepSeek
configuration and transport outcome, the search environment, and the
timestamp taken at result assembly. -/
structure Env where
  text : Option Str
  filePath : Option Str
  file : FileOracle
  deepseekKey : Option Str
  deepseekTransport : DSTransport
  search : SearchEnv
  now : Str

/-- How one execution of the Celery task body ends: a normal return
(Celery stores it and the job is done), or `raise self.retry(...)` with
the countdown delay and the triggering error. -/
inductive TaskExit where
  | ret : Option ResultPayload → TaskExit
  | retryAfter : Nat → Str → TaskExit

/-- Observable record of one execution of the task body: the
status-update writes it issued in order, how it exited, and which
sub-work it performed (interpretation call, search sub-task dispatch,
`save_to_history.delay`). -/
structure AttemptRecord where
  updates : List Update
  exit : TaskExit
  interpCalled : Bool
  searchDispatched : Bool
  historyDispatched : Bool

/-- One execution of `process_paper_task` (`tasks.py` lines 29-74) with
`self.request.retries = retries`.  The body marks the job `processing`,
extracts content, fails fast without retry on empty content, otherwise
runs interpretation and search, completes the job, and dispatches the
history recorder; an exception escaping a step (only extraction can
raise — the two clients absorb their own failures) is caught, the job is
marked `failed` with the error text, and a retry is scheduled while
`retries < maxRetries`. -/
def process_paper_task_once (env : Env) (retries maxRetries retryDelay : Nat) : AttemptRecord :=
  let processing : Update := ⟨str "processing", none, none⟩
  match (extract_content env.filePath env.text env.file).output with
  | Except.error e =>
    let failed : Update := ⟨str "failed", none, some e⟩
    if retries < maxRetries then ⟨[processing, failed], TaskExit.retryAfter retryDelay e, false, false, false⟩
    else ⟨[processing, failed], TaskExit.ret none, false, false, false⟩
  | Except.ok content =>
    if content.isEmpty then
      ⟨[processing, ⟨str "failed", none, some (str "无法提取文本内容")⟩],
       TaskExit.ret none, false, false, false⟩
    else
      let interpretation := call_deepseek_api env.deepseekKey content env.deepseekTransport
      let searchOut := search_related_papers env.search content
      let result : ResultPayload :=
        ⟨interpretation,
         if content.length > 2000 then content.take 2000 ++ str "..." else content,
         searchOut.1, env.now, content.length⟩
      ⟨[processing, ⟨str "completed", some result, none⟩],
       TaskExit.ret (some result), true, searchOut.2.isSome, true⟩

/-- Aggregate trace of a whole job: all status-update writes in order,
the value of the final normal return, the number of executions, and the
countdown delay of each scheduled retry. -/
structure JobRun where
  updates : List Update
  final : Option ResultPayload
  attempts : Nat
  delays : List Nat

/-- Driver for the Celery retry loop: execute the task body, and on a
scheduled retry re-execute it with `retries` incremented.  `fuel` bounds
the recursion; with `fuel = maxRetries + 1` it never runs out because a
retry is only scheduled while `retries < maxRetries`. -/
def runJobAux (envAt : Nat → Env) (maxRetries retryDelay : Nat) : Nat → Nat → JobRun
  | _, 0 => ⟨[], none, 0, []⟩
  | retries, fuel + 1 =>
    let a := process_paper_task_once (envAt retries) retries maxRetries retryDelay
    match a.exit with
    | TaskExit.ret r => ⟨a.updates, r, 1, []⟩
    | TaskExit.retryAfter d _ =>
      let rest := runJobAux envAt maxRetries retryDelay (retries + 1) fuel
      ⟨a.updates ++ rest.updates, rest.final, rest.attempts + 1, d :: rest.delays⟩

/-- A whole job run under the task's declared policy
(`max_retries=3, default_retry_delay=30`, `tasks.py` line 29), the
execution at retry count `n` seeing environment `envAt n`. -/
def runJob (envAt : Nat → Env) : JobRun := runJobAux envAt 3 30 0 4

/-- Fold a trace of status-update writes into a job row through
`AsyncTask.update_status`, bumping the timestamp on each write. -/
def applyUpdates (j : Job) (us : List Update) : Job :=
  us.foldl (fun j u => update_status j (j.updated_at + 1) u.status u.result u.error) j

/-- A freshly created `async_tasks` row (`main.py` line 88: status
defaults to `pending`, result and error to `NULL`). -/
def freshJob : Job := ⟨str "pending", none, none, 0⟩

/-! ## Test fixtures and helper lemmas -/

/-- Replace only the `os.remove` outcome of a file oracle. -/
def withRemoveOk (o : FileOracle) (b : Bool) : FileOracle :=
  ⟨o.pathExists, o.readOk, o.readErr, o.pdf, o.docx, o.decodes, b⟩

/-- What the PDF stage would accept: its text when the parse succeeded
and the text is non-empty. -/
def pdfYieldOf (o : FileOracle) : Option Str :=
  o.pdf.bind (fun pages => if (pdfText pages).isEmpty then none else some (pdfText pages))

/-- What the DOCX stage would accept: its text when the parse succeeded
and the text is non-empty. -/
def docxYieldOf (o : FileOracle) : Option Str :=
  o.docx.bind (fun paras => if (docxText paras).isEmpty then none else some (docxText paras))

/-- A readable file that no structured parser accepts and whose bytes
decode to the empty string under every attempted encoding (e.g. an empty
file). -/
def oracleEmptyFile : FileOracle :=
  ⟨true, true, [], none, none, [some [], some [], some [], some []], true⟩

/-- A file reference whose path does not exist. -/
def oracleNoFile : FileOracle := ⟨false, true, [], none, none, [], true⟩

/-- A file that exists but whose `open`/`read` raises with message `e`. -/
def readFailOracle (e : Str) : FileOracle := ⟨true, false, e, none, none, [], true⟩

/-- Job input with a dangling file reference and no inline text. -/
def envMissingFile : Env :=
  ⟨none, some (str "/data/gone.pdf"), oracleNoFile, none, Except.error [],
   ⟨none, Except.error [], true⟩, []⟩

/-- Job input whose file read raises with message `e` on this attempt. -/
def readFailEnv (e : Str) : Env :=
  ⟨none, some (str "/tmp/u.bin"), readFailOracle e, none, Except.error [],
   ⟨none, Except.error [], true⟩, []⟩

/-- Job with inline text, DeepSeek configured but timing out with
transport error `e`, search unconfigured. -/
def envTimeoutWith (e : Str) : Env :=
  ⟨some (str "hello world"), none, oracleNoFile, some (str "sk-1"), Except.error e,
   ⟨none, Except.error [], true⟩, str "t0"⟩

/-- Job whose DeepSeek call times out with a fixed transport error. -/
def envTimeout : Env := envTimeoutWith (str "Read timed out.")

/-- Attempt environments for a job whose first execution hits a file
read error and whose later executions succeed. -/
def envSeqC1 : Nat → Env
  | 0 => readFailEnv (str "disk error")
  | _ => envTimeout

theorem truthy_some (s : Str) (h : s ≠ []) : truthy (some s) = true := by
  simp [truthy, h]

/-! ## Claims -/

/-- Claim C9: inline text is returned immediately, truncated to the
10,000-character cap — unchanged when at most 10,000 characters, exactly
10,000 characters when longer — and this path performs no file work and
never fails. -/
theorem c9_inline_text_truncation (fp : Option Str) (t : Str) (o : FileOracle) (h : t ≠ []) :
    (extract_content fp (some t) o).output = Except.ok (t.take 10000)
    ∧ (extract_content fp (some t) o).removeAttempted = false
    ∧ (t.length ≤ 10000 → (extract_content fp (some t) o).output = Except.ok t)
    ∧ (10000 ≤ t.length → (t.take 10000).length = 10000) := by
  have ht : truthy (some t) = true := truthy_some t h
  refine ⟨?_, ?_, ?_, ?_⟩
  · simp [extract_content, ht]
  · simp [extract_content, ht]
  · intro hlen
    simp [extract_content, ht, List.take_of_length_le hlen]
  · intro hlen
    simp [List.length_take]
    omega

/-- Claim C9 witness: a two-character inline text is returned as-is. -/
theorem c9_inline_text_truncation_witness :
    (extract_content none (some (str "hi")) oracleNoFile).output = Except.ok (str "hi") :=
  (c9_inline_text_truncation none (str "hi") oracleNoFile (by decide)).2.2.1 (by decide)

/-- Claim C10: whenever extraction is given a truthy file reference to
an existing file and no inline text, the `finally` block attempts to
delete the file on every exit path (success, fallback, sentinel, and
even an escaping read error); when deletion succeeds the file is gone,
and a deletion failure is swallowed — the returned output is identical
whether `os.remove` succeeds or fails. -/
theorem c10_file_deleted_on_every_exit (fp : Str) (text : Option Str) (o : FileOracle)
    (htext : truthy text = false) (hfp : fp ≠ []) (he : o.pathExists = true) :
    (extract_content (some fp) text o).removeAttempted = true
    ∧ (o.removeOk = true → (extract_content (some fp) text o).fileRemains = false)
    ∧ (∀ b₁ b₂ : Bool, (extract_content (some fp) text (withRemoveOk o b₁)).output
        = (extract_content (some fp) text (withRemoveOk o b₂)).output) := by
  have hx : truthy (some fp) = true := truthy_some fp hfp
  refine ⟨?_, ?_, ?_⟩
  · simp [extract_content, htext, hx, he]
  · intro hrm
    simp [extract_content, htext, hx, he, hrm]
  · intro b₁ b₂
    simp [extract_content, withRemoveOk, htext, hx, he, pdfStage, docxStage, textStage]

/-- Claim C10 witness: for an empty readable file the deletion is
attempted and the output does not depend on whether deletion succeeds. -/
theorem c10_file_deleted_on_every_exit_witness :
    (extract_content (some (str "/tmp/f")) none oracleEmptyFile).removeAttempted = true
    ∧ (extract_content (some (str "/tmp/f")) none (withRemoveOk oracleEmptyFile true)).output
        = (extract_content (some (str "/tmp/f")) none (withRemoveOk oracleEmptyFile false)).output :=
  ⟨(c10_file_deleted_on_every_exit (str "/tmp/f") none oracleEmptyFile rfl (by decide) rfl).1,
   (c10_file_deleted_on_every_exit (str "/tmp/f") none oracleEmptyFile rfl (by decide) rfl).2.2
     true false⟩

/-- Claim C4 counterexample: a readable file rejected by both structured
parsers and whose bytes decode to the empty string makes the extractor
return the empty string, not the fixed non-empty sentinel — refuting the
claim that such a file still produces the sentinel. -/
theorem c4_empty_decode_returns_empty_not_sentinel :
    (extract_content (some (str "/tmp/f")) none oracleEmptyFile).output = Except.ok []
    ∧ sentinel ≠ []
    ∧ (extract_content (some (str "/tmp/f")) none oracleEmptyFile).output ≠ Except.ok sentinel := by
  refine ⟨rfl, by decide, ?_⟩
  intro hcontra
  have : ([] : Str) = sentinel := by
    have h0 : (extract_content (some (str "/tmp/f")) none oracleEmptyFile).output
        = Except.ok [] := rfl
    have := h0 ▸ hcontra
    exact Except.ok.inj this
  exact absurd this.symm (by decide)

/-- Claim C4 (amended): for a file input the extractor tries PDF, DOCX,
then plain decoding in this fixed order, accepting the PDF and DOCX
stages only when they yield non-empty text; the plain-decoding stage's
result is returned unconditionally — even when it is empty — and the
fixed non-empty sentinel is returned only when every decode attempt
raises. -/
theorem pdfStage_eq (o : FileOracle) :
    pdfStage o = match pdfYieldOf o with
      | some s => Except.ok s
      | none => docxStage o := by
  unfold pdfStage pdfYieldOf
  cases hpdf : o.pdf with
  | none => rfl
  | some pages =>
    by_cases hemp : pdfText pages = []
    · simp [List.isEmpty_iff, hemp]
    · simp [List.isEmpty_iff, hemp]

theorem docxStage_eq (o : FileOracle) :
    docxStage o = match docxYieldOf o with
      | some s => Except.ok s
      | none => textStage o := by
  unfold docxStage docxYieldOf
  cases hdocx : o.docx with
  | none => rfl
  | some paras =>
    by_cases hemp : docxText paras = []
    · simp [List.isEmpty_iff, hemp]
    · simp [List.isEmpty_iff, hemp]

theorem extract_output_eq (fp : Str) (o : FileOracle)
    (hfp : fp ≠ []) (he : o.pathExists = true) (hr : o.readOk = true) :
    (extract_content (some fp) none o).output = pdfStage o := by
  simp [extract_content, truthy, hfp, he, hr]

theorem c4_amended_fallback_order (fp : Str) (o : FileOracle)
    (hfp : fp ≠ []) (he : o.pathExists = true) (hr : o.readOk = true) :
    (∀ s, pdfYieldOf o = some s → (extract_content (some fp) none o).output = Except.ok s)
    ∧ (pdfYieldOf o = none → ∀ s, docxYieldOf o = some s →
        (extract_content (some fp) none o).output = Except.ok s)
    ∧ (pdfYieldOf o = none → docxYieldOf o = none →
        (extract_content (some fp) none o).output
          = Except.ok ((firstSome o.decodes).getD sentinel))
    ∧ (pdfYieldOf o = none → docxYieldOf o = none → firstSome o.decodes = none →
        (extract_content (some fp) none o).output = Except.ok sentinel) := by
  have hout := extract_output_eq fp o hfp he hr
  refine ⟨?_, ?_, ?_, ?_⟩
  · intro s hs
    rw [hout, pdfStage_eq, hs]
  · intro hpdfn s hs
    rw [hout, pdfStage_eq, hpdfn]
    show docxStage o = Except.ok s
    rw [docxStage_eq, hs]
  · intro hpdfn hdocxn
    rw [hout, pdfStage_eq, hpdfn]
    show docxStage o = _
    rw [docxStage_eq, hdocxn]
    show textStage o = _
    rfl
  · intro hpdfn hdocxn hdec
    rw [hout, pdfStage_eq, hpdfn]
    show docxStage o = _
    rw [docxStage_eq, hdocxn]
    show textStage o = _
    unfold textStage
    rw [hdec]
    rfl


/-- Claim C4 witness: a file on which every method fails — the two
parsers raise and every decode raises — yields the sentinel. -/
theorem c4_amended_fallback_order_witness :
    (extract_content (some (str "/tmp/f")) none
      ⟨true, true, [], none, none, [none, none, none, none], true⟩).output
      = Except.ok sentinel :=
  (c4_amended_fallback_order (str "/tmp/f")
      ⟨true, true, [], none, none, [none, none, none, none], true⟩
      (by decide) rfl rfl).2.2.2 rfl rfl rfl

/-- Claim C3: when extraction produces empty content the orchestrator
writes `processing` then `failed` with the fixed extraction-error
message, returns without scheduling any retry, and dispatches no
interpretation, search, or history sub-work. -/
theorem c3_empty_content_fails_fast (env : Env) (k m d : Nat)
    (h : (extract_content env.filePath env.text env.file).output = Except.ok []) :
    process_paper_task_once env k m d
      = ⟨[⟨str "processing", none, none⟩,
          ⟨str "failed", none, some (str "无法提取文本内容")⟩],
         TaskExit.ret none, false, false, false⟩ := by
  unfold process_paper_task_once
  rw [h]
  rfl

/-- Claim C3 witness: a job whose file reference points to a missing
path and that has no inline text fails fast with no retry and no
sub-task dispatch. -/
theorem c3_empty_content_fails_fast_witness :
    process_paper_task_once envMissingFile 0 3 30
      = ⟨[⟨str "processing", none, none⟩,
          ⟨str "failed", none, some (str "无法提取文本内容")⟩],
         TaskExit.ret none, false, false, false⟩ :=
  c3_empty_content_fails_fast envMissingFile 0 3 30 rfl

/-- Claim C5: the interpretation client returns the fixed
not-configured message when no credential (or an empty one) is
configured, and on any transport or non-2xx failure returns a failure
message embedding the error detail as text; every outcome is an
ordinary return value — the model is a total function, so no
language-level exception reaches the caller. -/
theorem c5_interpretation_client_degrades (content k e : Str) (transport : DSTransport) :
    (call_deepseek_api none content transport = str "API密钥未配置")
    ∧ (call_deepseek_api (some []) content transport = str "API密钥未配置")
    ∧ (k ≠ [] → call_deepseek_api (some k) content (Except.error e) = str "API调用失败: " ++ e)
    ∧ (k ≠ [] → call_deepseek_api (some k) content (Except.ok ⟨none⟩) = str "未能获取解读结果") := by
  refine ⟨rfl, rfl, ?_, ?_⟩
  · intro hk
    simp [call_deepseek_api, truthy_some k hk]
  · intro hk
    simp [call_deepseek_api, truthy_some k hk]

/-- Claim C5 witness: with a configured key, a transport error `boom`
yields the failure message with the error text embedded. -/
theorem c5_interpretation_client_degrades_witness :
    call_deepseek_api (some (str "sk-1")) (str "x") (Except.error (str "boom"))
      = str "API调用失败: boom" := by
  have h := (c5_interpretation_client_degrades (str "x") (str "sk-1") (str "boom")
    (Except.error (str "boom"))).2.2.1 (by decide)
  simpa using h

/-- Claim C6: the literature search never returns more than the
configured count of entries (3 in the orchestrator's call, and in
general at most the sub-task's `count`), degrades to the empty sequence
on a missing credential, on a transport failure, and on expiry of the
sub-task wait, and the dispatched query is derived from the first three
whitespace-delimited words of the content, with the fixed default query
when the content has no words. -/
theorem c6_search_bounded_and_total (env : SearchEnv) (content q e : Str)
    (key : Option Str) (cnt : Nat) (tr : SpringerTransport) :
    ((search_related_papers env content).1.length ≤ 3)
    ∧ ((search_related_papers_task key q cnt tr).length ≤ cnt)
    ∧ (env.springerKey = none → (search_related_papers env content).1 = [])
    ∧ (env.waitOk = false → (search_related_papers env content).1 = [])
    ∧ (env.transport = Except.error e → (search_related_papers env content).1 = [])
    ∧ (∀ qq, (search_related_papers env content).2 = some qq → qq = searchQuery content)
    ∧ (pySplit content = [] → searchQuery content = str "natural science") := by
  have htask : ∀ (key' : Option Str) (q' : Str) (cnt' : Nat) (tr' : SpringerTransport),
      (search_related_papers_task key' q' cnt' tr').length ≤ cnt' := by
    intro key' q' cnt' tr'
    unfold search_related_papers_task
    by_cases hk : truthy key' = true
    · simp only [hk, Bool.not_true, Bool.false_eq_true, if_false]
      cases tr' with
      | error _ => simp
      | ok data =>
        cases hrec : data.records with
        | none => simp [hrec]
        | some recs =>
          simp [hrec, List.length_map, List.length_take]
    · simp [hk]
  refine ⟨?_, htask key q cnt tr, ?_, ?_, ?_, ?_, ?_⟩
  · unfold search_related_papers
    by_cases hg : (!truthy env.springerKey || content.isEmpty) = true
    · simp [hg]
    · simp only [hg, Bool.false_eq_true, if_false]
      by_cases hw : env.waitOk = true
      · simpa [hw] using htask env.springerKey (searchQuery content) 3 env.transport
      · simp [hw]
  · intro hk
    simp [search_related_papers, hk, truthy]
  · intro hw
    unfold search_related_papers
    by_cases hg : (!truthy env.springerKey || content.isEmpty) = true
    · simp [hg]
    · simp [hg, hw]
  · intro htr
    unfold search_related_papers
    by_cases hg : (!truthy env.springerKey || content.isEmpty) = true
    · simp [hg]
    · simp only [hg, Bool.false_eq_true, if_false]
      by_cases hw : env.waitOk = true
      · simp [hw, search_related_papers_task, htr]
      · simp [hw]
  · intro qq hqq
    unfold search_related_papers at hqq
    by_cases hg : (!truthy env.springerKey || content.isEmpty) = true
    · simp [hg] at hqq
    · simp only [hg, Bool.false_eq_true, if_false] at hqq
      exact (Option.some.inj hqq).symm
  · intro hsplit
    simp [searchQuery, hsplit]

/-- Claim C6 witness: with no credential the search returns the empty
sequence, and whitespace-only content yields the fixed default query. -/
theorem c6_search_bounded_and_total_witness :
    (search_related_papers ⟨none, Except.error [], true⟩ (str "abc")).1 = []
    ∧ searchQuery (str " ") = str "natural science" :=
  ⟨(c6_search_bounded_and_total ⟨none, Except.error [], true⟩ (str "abc") [] []
      none 0 (Except.error [])).2.2.1 rfl,
   (c6_search_bounded_and_total ⟨none, Except.error [], true⟩ (str " ") [] []
      none 0 (Except.error [])).2.2.2.2.2.2 (by decide)⟩

/-- The Springer record used as Claim C7's counterexample: its abstract
has 2 characters, well under 200. -/
def shortAbstractRecord : RecordJson :=
  ⟨none, none, none, some (str "2021-05-01"), none, some (str "hi")⟩

/-- Claim C7 counterexample: a record whose abstract is only 2
characters long — no truncation occurs — still gets the ellipsis marker
appended, so the projected abstract differs from the original, refuting
the claim that an abstract of 200 units or fewer is kept unchanged. -/
theorem c7_short_abstract_gets_marker :
    (str "hi").length ≤ 200
    ∧ (paperOfRecord shortAbstractRecord).abstract = str "hi..."
    ∧ (paperOfRecord shortAbstractRecord).abstract ≠ str "hi" := by
  refine ⟨by decide, rfl, by decide⟩

/-- Claim C7 (amended): the projection truncates the abstract to 200
units and appends the ellipsis marker to every non-empty abstract —
also when no truncation occurred — yields an empty abstract when the
field is absent or empty (so the projected abstract never exceeds 203
units), and takes the first 4 characters of the publication-date field
as the year, empty when the field is absent or empty. -/
theorem c7_amended_record_projection (r : RecordJson) (a d : Str) :
    (r.abstract = some a → a ≠ [] →
      (paperOfRecord r).abstract = a.take 200 ++ str "...")
    ∧ (r.abstract = none → (paperOfRecord r).abstract = [])
    ∧ (r.abstract = some [] → (paperOfRecord r).abstract = [])
    ∧ ((paperOfRecord r).abstract.length ≤ 203)
    ∧ (r.publicationDate = some d → d ≠ [] → (paperOfRecord r).year = d.take 4)
    ∧ (r.publicationDate = none → (paperOfRecord r).year = []) := by
  refine ⟨?_, ?_, ?_, ?_, ?_, ?_⟩
  · intro ha hne
    simp [paperOfRecord, ha, List.isEmpty_iff, hne]
  · intro ha
    simp [paperOfRecord, ha]
  · intro ha
    simp [paperOfRecord, ha]
  · unfold paperOfRecord
    cases ha : r.abstract with
    | none => simp [ha]
    | some a' =>
      by_cases hne : a' = []
      · simp [ha, List.isEmpty_iff, hne]
      · have h1 : (a'.take 200).length ≤ 200 := by
          simp [List.length_take]
        have h2 : (str "...").length = 3 := by decide
        simp only [ha, List.isEmpty_iff]
        rw [if_neg hne]
        simp only [List.length_append, h2]
        omega
  · intro hd hne
    simp [paperOfRecord, hd, List.isEmpty_iff, hne]
  · intro hd
    simp [paperOfRecord, hd]

/-- Claim C7 witness: a 2021 date and a long abstract project to a
4-character year and a truncated abstract with the marker. -/
theorem c7_amended_record_projection_witness :
    (paperOfRecord shortAbstractRecord).year = (str "2021-05-01").take 4
    ∧ (paperOfRecord shortAbstractRecord).abstract
        = (str "hi").take 200 ++ str "..." :=
  ⟨(c7_amended_record_projection shortAbstractRecord (str "hi")
      (str "2021-05-01")).2.2.2.2.1 rfl (by decide),
   (c7_amended_record_projection shortAbstractRecord (str "hi")
      (str "2021-05-01")).1 rfl (by decide)⟩

/-- Claim C8: each history preview is at most 500 characters and is a
prefix of the corresponding full field whenever that field is present
(in particular whenever it is non-empty). -/
theorem c8_history_previews (res : ResultDict) (s t : Str) :
    ((create_from_result res).content_preview.length ≤ 500)
    ∧ ((create_from_result res).interpretation_preview.length ≤ 500)
    ∧ (res.original_content = some s →
        (create_from_result res).content_preview ++ s.drop 500 = s)
    ∧ (res.interpretation = some t →
        (create_from_result res).interpretation_preview ++ t.drop 500 = t) := by
  refine ⟨?_, ?_, ?_, ?_⟩
  · simp [create_from_result, List.length_take]
  · simp [create_from_result, List.length_take]
  · intro h
    simp [create_from_result, h, List.take_append_drop]
  · intro h
    simp [create_from_result, h, List.take_append_drop]

/-- Claim C8 witness: for a concrete result dict the content preview
concatenated with the dropped tail reproduces the full field. -/
theorem c8_history_previews_witness :
    (create_from_result ⟨some (str "interp"), some (str "content"), none⟩).content_preview
      ++ (str "content").drop 500 = str "content" :=
  (c8_history_previews ⟨some (str "interp"), some (str "content"), none⟩
    (str "content") (str "interp")).2.2.1 rfl

/-- A concrete result payload used to instantiate job-update facts. -/
def rp0 : ResultPayload := ⟨str "i", str "c", [], str "t", 1⟩

/-- Claim C1 counterexample: running the pipeline with a first attempt
that hits a file read error and a second attempt that completes, and
folding the pipeline's own status-update writes through
`AsyncTask.update_status`, leaves a job in status `completed` whose
`result` is set but whose `error` still holds the first attempt's text —
refuting mutual exclusivity for a job that fails and then completes on
retry. -/
theorem c1_stale_error_after_retry_completion :
    (applyUpdates freshJob (runJob envSeqC1).updates).status = str "completed"
    ∧ (applyUpdates freshJob (runJob envSeqC1).updates).result.isSome = true
    ∧ (applyUpdates freshJob (runJob envSeqC1).updates).error = some (str "disk error")
    ∧ (applyUpdates freshJob (runJob envSeqC1).updates).error ≠ none := by
  refine ⟨rfl, rfl, rfl, by decide⟩

/-- Claim C1 (amended): every status-update write issued by the
orchestrator sets at most one of result/error (the `processing` write
sets neither), and `update_status` never clears the field it does not
set — so a completed write yields a null error, and a failed write a
null result, only when the job had not previously recorded the other
field; a job that records a failure and then completes on a later retry
keeps the stale error alongside its result. -/
theorem c1_amended_update_exclusivity (env : Env) (k m d : Nat) (j : Job) (n : Nat)
    (s : Str) (r : ResultPayload) (e : Str) :
    (∀ u ∈ (process_paper_task_once env k m d).updates, u.result = none ∨ u.error = none)
    ∧ (j.error = none → (update_status j n s (some r) none).result = some r
        ∧ (update_status j n s (some r) none).error = none)
    ∧ (j.result = none → (update_status j n s none (some e)).error = some e
        ∧ (update_status j n s none (some e)).result = none) := by
  refine ⟨?_, ?_, ?_⟩
  · intro u hu
    unfold process_paper_task_once at hu
    rcases hex : (extract_content env.filePath env.text env.file).output with e' | content
    · simp only [hex] at hu
      by_cases hk : k < m
      · simp only [if_pos hk] at hu
        rcases List.mem_cons.mp hu with rfl | hu2
        · exact Or.inl rfl
        rcases List.mem_cons.mp hu2 with rfl | hu3
        · exact Or.inl rfl
        · exact absurd hu3 (List.not_mem_nil u)
      · simp only [if_neg hk] at hu
        rcases List.mem_cons.mp hu with rfl | hu2
        · exact Or.inl rfl
        rcases List.mem_cons.mp hu2 with rfl | hu3
        · exact Or.inl rfl
        · exact absurd hu3 (List.not_mem_nil u)
    · simp only [hex] at hu
      by_cases hemp : content.isEmpty = true
      · simp only [hemp, if_true] at hu
        rcases List.mem_cons.mp hu with rfl | hu2
        · exact Or.inl rfl
        rcases List.mem_cons.mp hu2 with rfl | hu3
        · exact Or.inl rfl
        · exact absurd hu3 (List.not_mem_nil u)
      · simp only [hemp, if_false] at hu
        rcases List.mem_cons.mp hu with rfl | hu2
        · exact Or.inl rfl
        rcases List.mem_cons.mp hu2 with rfl | hu3
        · exact Or.inr rfl
        · exact absurd hu3 (List.not_mem_nil u)
  · intro hj
    exact ⟨rfl, by simp [update_status, hj]⟩
  · intro hj
    exact ⟨rfl, by simp [update_status, hj]⟩

/-- Claim C1 amended witness: on a fresh job a completed write leaves
the error null and a failed write leaves the result null. -/
theorem c1_amended_update_exclusivity_witness :
    (update_status freshJob 1 (str "completed") (some rp0) none).error = none
    ∧ (update_status freshJob 1 (str "failed") none (some (str "boom"))).result = none :=
  ⟨((c1_amended_update_exclusivity envTimeout 0 3 30 freshJob 1 (str "completed") rp0
      (str "boom")).2.1 rfl).2,
   ((c1_amended_update_exclusivity envTimeout 0 3 30 freshJob 1 (str "failed") rp0
      (str "boom")).2.2 rfl).2⟩

/-- Claim C2 counterexample: with the interpretation service configured
and its call timing out, the job does not fail and performs no retry —
it completes in a single attempt, with the transport error text absorbed
into the interpretation field — refuting the claim that this scenario
exhausts 3 retries and ends `failed`. -/
theorem c2_interpretation_timeout_completes :
    (runJob (fun _ => envTimeout)).attempts = 1
    ∧ (runJob (fun _ => envTimeout)).delays = []
    ∧ (applyUpdates freshJob (runJob (fun _ => envTimeout)).updates).status = str "completed"
    ∧ (applyUpdates freshJob (runJob (fun _ => envTimeout)).updates).status ≠ str "failed"
    ∧ ((runJob (fun _ => envTimeout)).final.map ResultPayload.interpretation)
        = some (str "API调用失败: Read timed out.") := by
  refine ⟨rfl, rfl, rfl, by decide, rfl⟩

/-- Claim C2 (amended): a step that raises an unexpected error (here a
file read error — the only raising step, since the interpretation and
search clients absorb their own failures) marks the job `failed` with
the error text and is retried up to 3 times with a fixed 30-unit delay,
ending permanently `failed` with the last error after 4 executions; a
timeout of the configured interpretation call, by contrast, never
raises: the job completes in one attempt with the failure message
embedded in the interpretation field. -/
theorem c2_amended_retry_policy (errAt : Nat → Str) (e : Str) :
    (runJob (fun n => readFailEnv (errAt n))).attempts = 4
    ∧ (runJob (fun n => readFailEnv (errAt n))).delays = [30, 30, 30]
    ∧ (runJob (fun n => readFailEnv (errAt n))).final = none
    ∧ (runJob (fun n => readFailEnv (errAt n))).updates.getLast?
        = some ⟨str "failed", none, some (errAt 3)⟩
    ∧ (runJob (fun _ => envTimeoutWith e)).attempts = 1
    ∧ ((runJob (fun _ => envTimeoutWith e)).final.map ResultPayload.interpretation)
        = some (str "API调用失败: " ++ e) :=
  ⟨rfl, rfl, rfl, rfl, rfl, rfl⟩

/-- Claim C2 amended witness: with concrete error texts the all-failing
job takes exactly 4 executions and the timeout job exactly 1. -/
theorem c2_amended_retry_policy_witness :
    (runJob (fun n => readFailEnv (natStr n))).attempts = 4
    ∧ (runJob (fun _ => envTimeoutWith (str "x"))).attempts = 1 :=
  ⟨(c2_amended_retry_policy natStr (str "x")).1,
   (c2_amended_retry_policy natStr (str "x")).2.2.2.2.1⟩

end Ansapra
